import Mathlib

/-!
A shallow embedding of `suamd.c`, the daemon `suamd`.

The daemon mounts partitions on hotplug "add" events and unmounts them on
"remove" events.  The embedding below follows `suamd.c` function by function.

* C strings are lists of characters, one element per byte, without the
  terminating NUL; `strlen` is the list length.
* What the code reads from the operating system (results of `stat`, the
  contents of `/etc/mtab`) is a `World`; it is held fixed during one call.
* Results of the system calls the code issues (`mkdir`, `fork`, `wait`,
  `umount`, `rmdir`, `execl`) are supplied by a `Sys` record, and the calls
  and diagnostics a function performs are returned as a list of `Effect`s in
  program order.
* Where the C code has undefined behaviour (a write past the end of the array
  `mount_point[PATH_MAX]`, `strcmp` on a `NULL` pointer) the embedding returns
  `Except.error` with the `Fault`; nothing is said about what happens next.
-/

set_option autoImplicit false

namespace Suamd

/-! ## Strings and constants -/

/-- A C string: its bytes in order, the terminating NUL left out. -/
abbrev CStr := List Char

/-- Models `strlen`. -/
def strlen (s : CStr) : Nat := s.length

/-- Models `strncat(dest, src, n)`: appends at most `n` bytes of `src` to `dest`
(and a terminating NUL, which is not part of the model). -/
def strncat (dest src : CStr) (n : Nat) : CStr := dest ++ src.take n

/-- The undefined behaviours of the C code that the embedding tracks. -/
inductive Fault where
  /-- A write past the end of the array `mount_point[PATH_MAX]`. -/
  | buffer_overrun
  /-- A call of `strcmp` on a `NULL` pointer. -/
  | null_argument
deriving DecidableEq, Repr

/-- The call `strncat(dest, src, n)` where `dest` is an array of `size` bytes:
the resulting string and its terminating NUL must fit into the array;
otherwise `strncat` writes past its end. -/
def strncat_into (size : Nat) (dest src : CStr) (n : Nat) : Except Fault CStr :=
  if strlen (strncat dest src n) + 1 ≤ size then Except.ok (strncat dest src n)
  else Except.error Fault.buffer_overrun

/-- Models `sizeof` of a string literal: its bytes and the terminating NUL. -/
def sizeof_lit (s : CStr) : Nat := s.length + 1

/-- Models `#define MOUNT_PREFIX "/media/"`. -/
def MOUNT_PREFIX : CStr := "/media/".toList

/-- Models `#define NTFS3G_FS_TYPE "ntfs-3g"`. -/
def NTFS3G_FS_TYPE : CStr := "ntfs-3g".toList

/-- Models `#define EXTRA_CHARACTER "_"`. -/
def EXTRA_CHARACTER : CStr := "_".toList

/-- Models `PATH_MAX` of `<linux/limits.h>`. -/
def PATH_MAX : Nat := 4096

/-- Models `EEXIST` of `<errno.h>`. -/
def EEXIST : Nat := 17

/-- The mode `S_IRWXU | S_IRGRP | S_IXGRP` (octal 750) passed to `mkdir`. -/
def MOUNT_POINT_MODE : Nat := 0o750

/-! ## What the code reads -/

/-- The two fields of `struct mntent` the code uses. -/
structure mntent where
  mnt_fsname : CStr
  mnt_dir : CStr
deriving DecidableEq, Repr

/-- The environment read by the queries.
`stat p = none`: `stat(p, &s)` fails; `stat p = some d`: it succeeds and
`d` is `S_ISDIR(s.st_mode)`.
`mtab = none`: `setmntent("/etc/mtab", "r")` returns `NULL`;
`mtab = some t`: it succeeds and `getmntent` yields the entries of `t` in order. -/
structure World where
  stat : CStr → Option Bool
  mtab : Option (List mntent)

/-- A device delivered by the udev monitor: its device node, its action and
its property bag. -/
structure UdevDevice where
  devnode : CStr
  action : CStr
  properties : List (CStr × CStr)

/-- Models `udev_device_get_devnode`. -/
def udev_device_get_devnode (device : UdevDevice) : CStr := device.devnode

/-- Models `udev_device_get_action`. -/
def udev_device_get_action (device : UdevDevice) : CStr := device.action

/-- Models `udev_device_get_property_value`: the value of the first property with
the given key, `none` (`NULL`) when there is none. -/
def udev_device_get_property_value (device : UdevDevice) (key : CStr) : Option CStr :=
  (device.properties.find? (fun kv => kv.1 == key)).map (fun kv => kv.2)

/-! ## `path_exist`, `is_directory` -/

/-- Models `path_exist`: `stat(path, &s) == 0`. -/
def path_exist (w : World) (path : CStr) : Bool :=
  (w.stat path).isSome

/-- Models `is_directory`: `(stat(path, &s) == 0) ? S_ISDIR(s.st_mode) : 0`. -/
def is_directory (w : World) (path : CStr) : Bool :=
  match w.stat path with
  | some d => d
  | none => false

/-! ## `is_mount_point`, `is_mounted` -/

/-- The state of the scanning loops of `is_mount_point` and `is_mounted`:
the return flag `ret` and the string stored through the out pointer. -/
structure Scan where
  ret : Bool
  out : Option CStr
deriving DecidableEq, Repr

/-- The loop `while((partition = getmntent(mtab)) && !ret)` of
`is_mount_point`, over the entries not yet read.  `dev_node` tells whether the
out pointer is non-NULL. -/
def is_mount_point_loop (path : CStr) (dev_node : Bool) : List mntent → Scan → Scan
  | [], s => s
  | partition :: rest, s =>
    if s.ret then s
    else if partition.mnt_dir = path then
      is_mount_point_loop path dev_node rest
        ⟨true, if dev_node then some partition.mnt_fsname else s.out⟩
    else is_mount_point_loop path dev_node rest s

/-- Models `is_mount_point(path, dev_node)`: the returned flag, the string left in
`*dev_node` (when the pointer is non-NULL), and the world after the call. -/
def is_mount_point (w : World) (path : CStr) (dev_node : Bool) : Scan × World :=
  match w.mtab with
  | some entries => (is_mount_point_loop path dev_node entries ⟨false, none⟩, w)
  | none => (⟨false, none⟩, w)

/-- The loop of `is_mounted`, which compares `mnt_fsname` and stores `mnt_dir`. -/
def is_mounted_loop (dev_node : CStr) (mount_point : Bool) : List mntent → Scan → Scan
  | [], s => s
  | partition :: rest, s =>
    if s.ret then s
    else if partition.mnt_fsname = dev_node then
      is_mounted_loop dev_node mount_point rest
        ⟨true, if mount_point then some partition.mnt_dir else s.out⟩
    else is_mounted_loop dev_node mount_point rest s

/-- Models `is_mounted(dev_node, mount_point)`. -/
def is_mounted (w : World) (dev_node : CStr) (mount_point : Bool) : Scan × World :=
  match w.mtab with
  | some entries => (is_mounted_loop dev_node mount_point entries ⟨false, none⟩, w)
  | none => (⟨false, none⟩, w)

/-! ## `generate_mount_point` -/

/-- Lines 66-70 of `generate_mount_point`: `ID_FS_LABEL`, else `ID_MODEL`,
else `EXTRA_CHARACTER`. -/
def candidate_identity (device : UdevDevice) : CStr :=
  let id_fs_label := udev_device_get_property_value device "ID_FS_LABEL".toList
  let id_fs_label :=
    match id_fs_label with
    | some v => some v
    | none => udev_device_get_property_value device "ID_MODEL".toList
  match id_fs_label with
  | some v => v
  | none => EXTRA_CHARACTER

/-- The part of the loop condition of `generate_mount_point` that reads the
world: `path_exist(p) && (is_mount_point(p, NULL) || !is_directory(p))`. -/
def collides (w : World) (mount_point : CStr) : Bool :=
  path_exist w mount_point &&
    ((is_mount_point w mount_point false).1.ret || !is_directory w mount_point)

/-- The `while` loop of `generate_mount_point`, on the array
`mount_point[PATH_MAX]`.  The first argument bounds the number of iterations;
`PATH_MAX` is enough (`collision_loop_fuel`), because every iteration
lengthens the string by one byte. -/
def collision_loop (w : World) : Nat → CStr → Except Fault CStr
  | 0, mount_point => Except.ok mount_point
  | fuel + 1, mount_point =>
    if collides w mount_point && decide (strlen mount_point < PATH_MAX) then
      match strncat_into PATH_MAX mount_point EXTRA_CHARACTER (sizeof_lit EXTRA_CHARACTER) with
      | Except.ok mount_point => collision_loop w fuel mount_point
      | Except.error f => Except.error f
    else Except.ok mount_point

/-- Lines 63 and 72-83 of `generate_mount_point`, from the chosen identity on:
`Except.ok none` is the `NULL` return. -/
def mount_point_for (w : World) (id_fs_label : CStr) : Except Fault (Option CStr) :=
  match strncat_into PATH_MAX MOUNT_PREFIX id_fs_label (PATH_MAX - strlen MOUNT_PREFIX - 1) with
  | Except.error f => Except.error f
  | Except.ok mount_point =>
    match collision_loop w PATH_MAX mount_point with
    | Except.error f => Except.error f
    | Except.ok mount_point =>
      let len := strlen mount_point
      if len < PATH_MAX then Except.ok (some mount_point) else Except.ok none

/-- Models `generate_mount_point(device)`. -/
def generate_mount_point (w : World) (device : UdevDevice) : Except Fault (Option CStr) :=
  mount_point_for w (candidate_identity device)

/-! ## What the code does: effects and system-call results -/

/-- The diagnostics the program prints, by format string. -/
inductive Msg where
  /-- Message `Failed to create mount point %s`, with `errno`. -/
  | failed_create_mount_point (errno : Nat) (mount_point : CStr)
  /-- Message of `perror("fork syscall error")`. -/
  | fork_error
  /-- Message `unplug and plug you device again to retry`. -/
  | retry_hint
  /-- Message of `perror("/sbin/mount")`. -/
  | exec_error
  /-- Message `Failed to mount %s on %s`. -/
  | failed_mount (devnode mount_point : CStr)
  /-- Message `Device %s successfuly mounted on %s`. -/
  | mounted (devnode mount_point : CStr)
  /-- Message `Failed to unmount device %s (mount point: %s)`. -/
  | failed_unmount (dev_node mount_point : CStr)
  /-- Message `Device %s successfuly unmounted (mount point: %s)`. -/
  | unmounted (dev_node mount_point : CStr)
  /-- Message `Failed to delete %s`. -/
  | failed_delete (mount_point : CStr)
  /-- Message `Failed to generate mount point for %s`. -/
  | failed_generate (dev_node : CStr)
  /-- Message `[ADD] device %s added`. -/
  | added (dev_node : CStr)
  /-- Message `[REMOVE] device %s removed`. -/
  | removed (dev_node : CStr)
deriving DecidableEq, Repr

/-- What the forked child does (the branch `p == 0` of `mount_device`). -/
inductive ChildStep where
  | setuid (uid : Nat)
  | execl (path : CStr) (argv : List CStr)
  | perror (m : Msg)
  | exit (code : Nat)
deriving DecidableEq, Repr

/-- One system call or diagnostic of the daemon, as it appears in a trace. -/
inductive Effect where
  | mkdir (path : CStr) (mode : Nat)
  | fork
  | child (steps : List ChildStep)
  | wait
  | umount (target : CStr)
  | rmdir (path : CStr)
  | stdout (m : Msg)
  | stderr (m : Msg)
  | sleep (seconds : Nat)
deriving DecidableEq, Repr

/-- Results of the system calls the daemon issues.
`mkdir p m` is the pair (return value, `errno`); `fork_ok` tells whether
`fork` creates a child (otherwise it returns `-1`); `execl_ok` whether
`execl` in the child succeeds; `wait_status` is the status stored by `wait`;
`umount` and `rmdir` give the return value. -/
structure Sys where
  mkdir : CStr → Nat → Int × Nat
  fork_ok : Bool
  execl_ok : Bool
  wait_status : Int
  umount : CStr → Int
  rmdir : CStr → Int

/-! ## `mount_device` -/

/-- The argument vector `execl` builds from its variadic arguments: they
are read up to the first `NULL`. -/
def execl_argv : List (Option CStr) → List CStr
  | [] => []
  | none :: _ => []
  | some a :: rest => a :: execl_argv rest

/-- The `#ifdef USE_NTFS3G` block of `mount_device`; the argument tells whether
the macro is defined.  With the macro defined and `ID_FS_TYPE` absent the code
calls `strcmp` on `NULL`. -/
def substitute_fs_type (USE_NTFS3G : Bool) (fs_type : Option CStr) :
    Except Fault (Option CStr) :=
  if USE_NTFS3G then
    match fs_type with
    | some t => if t = "ntfs".toList then Except.ok (some NTFS3G_FS_TYPE) else Except.ok (some t)
    | none => Except.error Fault.null_argument
  else Except.ok fs_type

/-- The branch `p == 0` of `mount_device`, run by the child. -/
def mount_child (sys : Sys) (fs_type : Option CStr) (devnode mount_point : CStr) :
    List ChildStep :=
  [ChildStep.setuid 0,
   ChildStep.execl "/sbin/mount".toList
     (execl_argv [some "/sbin/mount".toList, some "-t".toList, fs_type,
       some devnode, some mount_point])] ++
  (if sys.execl_ok then [] else [ChildStep.perror Msg.exec_error, ChildStep.exit 1])

/-- Lines 126-155 of `mount_device`, after the filesystem type is settled. -/
def mount_device_run (sys : Sys) (fs_type : Option CStr) (devnode mount_point : CStr) :
    List Effect :=
  let r := sys.mkdir mount_point MOUNT_POINT_MODE
  if r.1 = -1 ∧ r.2 ≠ EEXIST then
    [Effect.mkdir mount_point MOUNT_POINT_MODE,
     Effect.stderr (Msg.failed_create_mount_point r.2 mount_point)]
  else if !sys.fork_ok then
    [Effect.mkdir mount_point MOUNT_POINT_MODE, Effect.fork,
     Effect.stderr Msg.fork_error, Effect.stderr Msg.retry_hint]
  else
    [Effect.mkdir mount_point MOUNT_POINT_MODE, Effect.fork,
     Effect.child (mount_child sys fs_type devnode mount_point), Effect.wait] ++
    (if sys.wait_status ≠ 0 then [Effect.stderr (Msg.failed_mount devnode mount_point)]
     else [Effect.stdout (Msg.mounted devnode mount_point)])

/-- Models `mount_device(device, mount_point)`. -/
def mount_device (sys : Sys) (USE_NTFS3G : Bool) (device : UdevDevice)
    (mount_point : CStr) : Except Fault (List Effect) :=
  let devnode := udev_device_get_devnode device
  let fs_type := udev_device_get_property_value device "ID_FS_TYPE".toList
  match substitute_fs_type USE_NTFS3G fs_type with
  | Except.error f => Except.error f
  | Except.ok fs_type => Except.ok (mount_device_run sys fs_type devnode mount_point)

/-! ## `unmount_device` -/

/-- Models `unmount_device(device)`. -/
def unmount_device (sys : Sys) (w : World) (device : UdevDevice) : List Effect :=
  let dev_node := udev_device_get_devnode device
  let r := (is_mounted w dev_node true).1
  if r.ret then
    match r.out with
    | some mount_point =>
      if sys.umount mount_point = -1 then
        [Effect.umount mount_point, Effect.stderr (Msg.failed_unmount dev_node mount_point)]
      else
        [Effect.umount mount_point, Effect.stdout (Msg.unmounted dev_node mount_point)] ++
        (if sys.rmdir mount_point = -1 then
          [Effect.rmdir mount_point, Effect.stderr (Msg.failed_delete mount_point)]
         else [Effect.rmdir mount_point])
    | none => []
  else []

/-! ## The body of the `while(1)` loop of `main` -/

/-- Lines 252-261 of `main`: what the "add" branch does with the value
returned by `generate_mount_point`. -/
def add_branch (sys : Sys) (USE_NTFS3G : Bool) (d : UdevDevice)
    (mount_point : Option CStr) : Except Fault (List Effect) :=
  match mount_point with
  | some mount_point => mount_device sys USE_NTFS3G d mount_point
  | none => Except.ok [Effect.stderr (Msg.failed_generate (udev_device_get_devnode d))]

/-- One iteration of the loop of `main`; the argument is what
`udev_monitor_receive_device` returned (`none` for `NULL`). -/
def main_loop_step (sys : Sys) (USE_NTFS3G : Bool) (w : World)
    (udevice : Option UdevDevice) : Except Fault (List Effect) :=
  (match udevice with
   | some d =>
     let dev_node := udev_device_get_devnode d
     if udev_device_get_action d = "add".toList then
       match generate_mount_point w d with
       | Except.error f => Except.error f
       | Except.ok mount_point =>
         (add_branch sys USE_NTFS3G d mount_point).map
           (fun tr => Effect.stdout (Msg.added dev_node) :: tr)
     else if udev_device_get_action d = "remove".toList then
       Except.ok (Effect.stdout (Msg.removed dev_node) :: unmount_device sys w d)
     else Except.ok []
   | none => Except.ok []).map (fun tr => tr ++ [Effect.sleep 1])

/-! ## Reading traces -/

/-- The effect is an unmount operation. -/
def Effect.isUmount : Effect → Bool
  | Effect.umount _ => true
  | _ => false

/-- The effect is a directory removal. -/
def Effect.isRmdir : Effect → Bool
  | Effect.rmdir _ => true
  | _ => false

/-- The argument vectors of all `execl` calls of a child. -/
def child_execs : List ChildStep → List (CStr × List CStr)
  | [] => []
  | ChildStep.execl path argv :: rest => (path, argv) :: child_execs rest
  | _ :: rest => child_execs rest

/-- All `execl` calls in a trace, with path and argument vector, in order. -/
def execs : List Effect → List (CStr × List CStr)
  | [] => []
  | Effect.child steps :: rest => child_execs steps ++ execs rest
  | _ :: rest => execs rest

/-! ## Vocabulary of the specification -/

/-- The path `base` followed by `n` copies of the suffix `EXTRA_CHARACTER`. -/
def with_suffixes (base : CStr) : Nat → CStr
  | 0 => base
  | n + 1 => with_suffixes base n ++ EXTRA_CHARACTER

/-- The path is a live mount point: some entry of the mount table has it as
its mount path. -/
def live_mount_point (w : World) (path : CStr) : Prop :=
  ∃ t, w.mtab = some t ∧ ∃ e ∈ t, e.mnt_dir = path

/-- The path has no collision: it does not exist on disk, or it exists as a
directory that is not a live mount point. -/
def no_collision (w : World) (path : CStr) : Prop :=
  w.stat path = none ∨ (w.stat path = some true ∧ ¬ live_mount_point w path)

/-- The base path of the specification: the prefix followed by the identity,
verbatim. -/
def base_path (identity : CStr) : CStr := MOUNT_PREFIX ++ identity

/-! ## Concrete inputs -/

/-- Nothing exists on disk and the mount table is empty. -/
def empty_world : World := ⟨fun _ => none, some []⟩

/-- A partition labelled `DATA`. -/
def data_device : UdevDevice :=
  ⟨"/dev/sdc1".toList, "add".toList,
   [("ID_FS_LABEL".toList, "DATA".toList), ("ID_FS_TYPE".toList, "vfat".toList)]⟩

/-- The directory `/media/DATA` exists and `/dev/sdb1` is mounted on it. -/
def data_mounted_world : World :=
  ⟨fun p => if p = "/media/DATA".toList then some true else none,
   some [⟨"/dev/sdb1".toList, "/media/DATA".toList⟩]⟩

/-- The mount table lists `/media/DATA`, but `stat` fails on that path. -/
def stale_world : World :=
  ⟨fun _ => none, some [⟨"/dev/sdb1".toList, "/media/DATA".toList⟩]⟩

/-- A label of 4089 bytes, one more than fits behind the prefix. -/
def long_label : CStr := List.replicate 4089 'A'

/-- A partition carrying `long_label`. -/
def long_label_device : UdevDevice :=
  ⟨"/dev/sdc1".toList, "add".toList, [("ID_FS_LABEL".toList, long_label)]⟩

/-- The path of `n` nested directories, each named by 254 bytes `d` and
followed by a slash. -/
def deep_dirs : Nat → CStr
  | 0 => []
  | n + 1 => List.replicate 254 'd' ++ '/' :: deep_dirs n

/-- A label of 4088 bytes: sixteen nested directory names and a file name of
eight bytes.  With the prefix it is a path of `PATH_MAX - 1` bytes whose
components have at most 254 bytes. -/
def deep_label : CStr := deep_dirs 16 ++ List.replicate 8 'f'

/-- A partition carrying `deep_label`. -/
def deep_device : UdevDevice :=
  ⟨"/dev/sdc1".toList, "add".toList, [("ID_FS_LABEL".toList, deep_label)]⟩

/-- The base path of `deep_label` exists as a regular file; nothing is
mounted. -/
def deep_world : World :=
  ⟨fun p => if p = base_path deep_label then some false else none, some []⟩

/-- A partition with a model and no label. -/
def model_device : UdevDevice :=
  ⟨"/dev/sdc1".toList, "add".toList, [("ID_MODEL".toList, "Flash_Disk".toList)]⟩

/-- A partition with neither label nor model. -/
def bare_device : UdevDevice :=
  ⟨"/dev/sdc1".toList, "add".toList, [("ID_FS_TYPE".toList, "ext4".toList)]⟩

/-- Every system call succeeds. -/
def sys_ok : Sys := ⟨fun _ _ => (0, 0), true, true, 0, fun _ => 0, fun _ => 0⟩

/-- Every system call succeeds, except that `fork` fails. -/
def sys_fork_fails : Sys := ⟨fun _ _ => (0, 0), false, true, 0, fun _ => 0, fun _ => 0⟩

/-- Every system call succeeds, except that `umount` fails. -/
def sys_umount_fails : Sys := ⟨fun _ _ => (0, 0), true, true, 0, fun _ => -1, fun _ => 0⟩

/-- The partition `/dev/sdb1` on a "remove" event. -/
def removed_device : UdevDevice :=
  ⟨"/dev/sdb1".toList, "remove".toList, [("ID_FS_LABEL".toList, "DATA".toList)]⟩

/-- A partition on a "change" event. -/
def changed_device : UdevDevice :=
  ⟨"/dev/sdb1".toList, "change".toList, [("ID_FS_LABEL".toList, "DATA".toList)]⟩

/-- A partition without `ID_FS_TYPE`. -/
def untyped_device : UdevDevice :=
  ⟨"/dev/sdc1".toList, "add".toList, [("ID_FS_LABEL".toList, "DATA".toList)]⟩

/-! ## Lemmas on the queries -/

theorem is_mount_point_loop_done (path : CStr) (dn : Bool) (t : List mntent) (s : Scan)
    (h : s.ret = true) : is_mount_point_loop path dn t s = s := by
  cases t with
  | nil => rfl
  | cons e rest => simp [is_mount_point_loop, h]

theorem is_mount_point_loop_find (path : CStr) (dn : Bool) (t : List mntent) :
    is_mount_point_loop path dn t ⟨false, none⟩ =
      match t.find? (fun e => decide (e.mnt_dir = path)) with
      | some e => ⟨true, if dn then some e.mnt_fsname else none⟩
      | none => ⟨false, none⟩ := by
  induction t with
  | nil => rfl
  | cons e rest ih =>
    by_cases he : e.mnt_dir = path
    · simp [is_mount_point_loop, he, List.find?, is_mount_point_loop_done]
    · simp [is_mount_point_loop, he, List.find?, ih]

theorem is_mounted_loop_done (dev : CStr) (mp : Bool) (t : List mntent) (s : Scan)
    (h : s.ret = true) : is_mounted_loop dev mp t s = s := by
  cases t with
  | nil => rfl
  | cons e rest => simp [is_mounted_loop, h]

theorem is_mounted_loop_find (dev : CStr) (mp : Bool) (t : List mntent) :
    is_mounted_loop dev mp t ⟨false, none⟩ =
      match t.find? (fun e => decide (e.mnt_fsname = dev)) with
      | some e => ⟨true, if mp then some e.mnt_dir else none⟩
      | none => ⟨false, none⟩ := by
  induction t with
  | nil => rfl
  | cons e rest ih =>
    by_cases he : e.mnt_fsname = dev
    · simp [is_mounted_loop, he, List.find?, is_mounted_loop_done]
    · simp [is_mounted_loop, he, List.find?, ih]

theorem is_mount_point_ret_iff (w : World) (path : CStr) (dn : Bool) :
    (is_mount_point w path dn).1.ret = true ↔ live_mount_point w path := by
  unfold is_mount_point live_mount_point
  cases hm : w.mtab with
  | none => simp
  | some t =>
    simp only [is_mount_point_loop_find]
    cases hf : t.find? (fun e => decide (e.mnt_dir = path)) with
    | none =>
      simp only [List.find?_eq_none, decide_eq_true_eq] at hf
      simp only [Bool.false_eq_true, Option.some.injEq, exists_eq_left', false_iff, not_exists,
        not_and]
      exact fun e he => hf e he
    | some e =>
      have h1 := List.find?_some hf
      have h2 := List.mem_of_find?_eq_some hf
      simp only [decide_eq_true_eq] at h1
      simp only [Option.some.injEq, exists_eq_left', true_iff]
      exact ⟨e, h2, h1⟩

theorem collides_false_iff (w : World) (p : CStr) :
    collides w p = false ↔ no_collision w p := by
  have hmp := is_mount_point_ret_iff w p false
  unfold collides no_collision path_exist is_directory
  cases hs : w.stat p with
  | none => simp
  | some d =>
    cases d with
    | true =>
      cases hr : (is_mount_point w p false).1.ret with
      | true => simp [← hmp, hr]
      | false => simp [← hmp, hr]
    | false => simp

/-! ## Lemmas on the collision loop -/

theorem strlen_with_suffixes (base : CStr) (n : Nat) :
    strlen (with_suffixes base n) = strlen base + n := by
  induction n with
  | zero => rfl
  | succ n ih =>
    simp only [strlen] at ih
    simp [with_suffixes, strlen, EXTRA_CHARACTER, ih, Nat.add_assoc]

theorem with_suffixes_append (base : CStr) (n : Nat) :
    with_suffixes (base ++ EXTRA_CHARACTER) n = with_suffixes base (n + 1) := by
  induction n with
  | zero => rfl
  | succ n ih => rw [with_suffixes, ih]; rfl

theorem with_suffixes_extends (base : CStr) (n : Nat) : base <+: with_suffixes base n := by
  induction n with
  | zero => exact List.prefix_refl _
  | succ n ih => exact ih.trans (List.prefix_append _ _)

theorem strncat_extra (mp : CStr) :
    strncat mp EXTRA_CHARACTER (sizeof_lit EXTRA_CHARACTER) = mp ++ EXTRA_CHARACTER := by
  simp [strncat, sizeof_lit, EXTRA_CHARACTER]

/-- Appending the suffix fits the array exactly when the string has at most
`PATH_MAX - 2` bytes. -/
theorem strncat_into_extra (mp : CStr) :
    strncat_into PATH_MAX mp EXTRA_CHARACTER (sizeof_lit EXTRA_CHARACTER) =
      if strlen mp + 2 ≤ PATH_MAX then Except.ok (mp ++ EXTRA_CHARACTER)
      else Except.error Fault.buffer_overrun := by
  unfold strncat_into
  rw [strncat_extra]
  have : strlen (mp ++ EXTRA_CHARACTER) = strlen mp + 1 := by simp [strlen, EXTRA_CHARACTER]
  rw [this]

/-- The loop either returns the start path with some number `n` of suffixes or
overruns the array at that path; all paths with fewer suffixes passed the loop
condition and could be lengthened within the array. -/
theorem collision_loop_result (w : World) (fuel : Nat) (mp : CStr) :
    ∃ n, n ≤ fuel ∧
      (∀ k, k < n → collides w (with_suffixes mp k) = true ∧ strlen mp + k + 2 ≤ PATH_MAX) ∧
      ((collision_loop w fuel mp = Except.ok (with_suffixes mp n) ∧
          (n = fuel ∨
            ¬ (collides w (with_suffixes mp n) = true ∧ strlen mp + n < PATH_MAX))) ∨
       (collision_loop w fuel mp = Except.error Fault.buffer_overrun ∧
          collides w (with_suffixes mp n) = true ∧ strlen mp + n < PATH_MAX ∧
          PATH_MAX < strlen mp + n + 2)) := by
  induction fuel generalizing mp with
  | zero =>
    exact ⟨0, le_refl _, fun k hk => absurd hk (Nat.not_lt_zero k), Or.inl ⟨rfl, Or.inl rfl⟩⟩
  | succ f ih =>
    by_cases hc : collides w mp = true ∧ strlen mp < PATH_MAX
    · by_cases hfit : strlen mp + 2 ≤ PATH_MAX
      · obtain ⟨n, hn, hall, hres⟩ := ih (mp ++ EXTRA_CHARACTER)
        have hlen : strlen (mp ++ EXTRA_CHARACTER) = strlen mp + 1 := by
          simp [strlen, EXTRA_CHARACTER]
        have hstep : collision_loop w (f + 1) mp = collision_loop w f (mp ++ EXTRA_CHARACTER) := by
          rw [collision_loop, strncat_into_extra]
          simp only [hc.1, hc.2, decide_True, Bool.and_self, if_true, if_pos hfit]
        refine ⟨n + 1, Nat.succ_le_succ hn, ?_, ?_⟩
        · intro k hk
          cases k with
          | zero => exact ⟨hc.1, hfit⟩
          | succ k =>
            have := hall k (Nat.lt_of_succ_lt_succ hk)
            rw [with_suffixes_append, hlen] at this
            exact ⟨this.1, by omega⟩
        · rw [hstep, ← with_suffixes_append]
          rw [hlen] at hres
          rcases hres with ⟨h1, h2⟩ | ⟨h1, h2, h3, h4⟩
          · left
            refine ⟨h1, ?_⟩
            rcases h2 with h | h
            · exact Or.inl (by omega)
            · right
              intro hh
              exact h ⟨hh.1, by omega⟩
          · right
            exact ⟨h1, h2, by omega, by omega⟩
      · refine ⟨0, Nat.zero_le _, fun k hk => absurd hk (Nat.not_lt_zero k), Or.inr ⟨?_, hc.1, hc.2, ?_⟩⟩
        · rw [collision_loop, strncat_into_extra]
          simp only [hc.1, hc.2, decide_True, Bool.and_self, if_true, if_neg hfit]
        · omega
    · refine ⟨0, Nat.zero_le _, fun k hk => absurd hk (Nat.not_lt_zero k),
        Or.inl ⟨?_, Or.inr hc⟩⟩
      rw [collision_loop]
      rw [not_and] at hc
      by_cases h1 : collides w mp = true
      · simp [h1, hc h1, with_suffixes]
      · simp [h1, with_suffixes]

/-- With `PATH_MAX` iterations allowed the bound on the iterations is never
what stops the loop: it leaves through its condition or overruns the array. -/
theorem collision_loop_fuel (w : World) (mp : CStr) :
    ∃ n,
      (∀ k, k < n → collides w (with_suffixes mp k) = true ∧ strlen mp + k + 2 ≤ PATH_MAX) ∧
      ((collision_loop w PATH_MAX mp = Except.ok (with_suffixes mp n) ∧
          ¬ (collides w (with_suffixes mp n) = true ∧ strlen mp + n < PATH_MAX)) ∨
       (collision_loop w PATH_MAX mp = Except.error Fault.buffer_overrun ∧
          collides w (with_suffixes mp n) = true ∧ strlen mp + n < PATH_MAX ∧
          PATH_MAX < strlen mp + n + 2)) := by
  obtain ⟨n, _, hall, hres⟩ := collision_loop_result w PATH_MAX mp
  refine ⟨n, hall, ?_⟩
  rcases hres with ⟨h1, h2⟩ | h
  · left
    refine ⟨h1, ?_⟩
    rcases h2 with h | h
    · intro hh
      omega
    · exact h
  · exact Or.inr h

/-- The string built by lines 63 and 72: the prefix and at most
`PATH_MAX - strlen(MOUNT_PREFIX) - 1` bytes of the identity. -/
theorem strlen_code_base (identity : CStr) :
    strlen (strncat MOUNT_PREFIX identity (PATH_MAX - strlen MOUNT_PREFIX - 1)) < PATH_MAX := by
  simp only [strncat, strlen, List.length_append, List.length_take, MOUNT_PREFIX, PATH_MAX]
  have : "/media/".toList.length = 7 := rfl
  omega

/-- The first `strncat` always fits the array. -/
theorem strncat_into_base (identity : CStr) :
    strncat_into PATH_MAX MOUNT_PREFIX identity (PATH_MAX - strlen MOUNT_PREFIX - 1) =
      Except.ok (strncat MOUNT_PREFIX identity (PATH_MAX - strlen MOUNT_PREFIX - 1)) := by
  unfold strncat_into
  rw [if_pos (Nat.succ_le_of_lt (strlen_code_base identity))]

/-- The result of `mount_point_for` in terms of the number of suffixes: the
first candidate that does not collide, if it is shorter than `PATH_MAX`. -/
theorem mount_point_for_some (w : World) (identity : CStr) (n : Nat)
    (hall : ∀ k, k < n → collides w (with_suffixes
      (strncat MOUNT_PREFIX identity (PATH_MAX - strlen MOUNT_PREFIX - 1)) k) = true)
    (hn : collides w (with_suffixes
      (strncat MOUNT_PREFIX identity (PATH_MAX - strlen MOUNT_PREFIX - 1)) n) = false)
    (hlen : strlen (strncat MOUNT_PREFIX identity (PATH_MAX - strlen MOUNT_PREFIX - 1)) + n
      < PATH_MAX) :
    mount_point_for w identity = Except.ok (some (with_suffixes
      (strncat MOUNT_PREFIX identity (PATH_MAX - strlen MOUNT_PREFIX - 1)) n)) := by
  obtain ⟨m, hall', hres⟩ := collision_loop_fuel w
    (strncat MOUNT_PREFIX identity (PATH_MAX - strlen MOUNT_PREFIX - 1))
  have hgt : ¬ n < m := by
    intro h
    have := (hall' n h).1
    rw [hn] at this
    exact absurd this (by simp)
  rcases hres with ⟨hr, hstop⟩ | ⟨_, hc, _, hover⟩
  · have hmn : m = n := by
      rcases Nat.lt_trichotomy m n with h | h | h
      · exact absurd ⟨hall m h, by omega⟩ hstop
      · exact h
      · exact absurd h hgt
    subst hmn
    unfold mount_point_for
    simp only [strncat_into_base, hr, strlen_with_suffixes]
    rw [if_pos hlen]
  · exfalso
    rcases Nat.lt_trichotomy m n with h | h | h
    · omega
    · rw [h, hn] at hc
      exact absurd hc (by simp)
    · exact hgt h

/-- When every candidate shorter than `PATH_MAX` collides, the loop overruns
the array `mount_point[PATH_MAX]`. -/
theorem mount_point_for_overrun (w : World) (identity : CStr)
    (hall : ∀ k, strlen (strncat MOUNT_PREFIX identity (PATH_MAX - strlen MOUNT_PREFIX - 1)) + k
        < PATH_MAX →
      collides w (with_suffixes
        (strncat MOUNT_PREFIX identity (PATH_MAX - strlen MOUNT_PREFIX - 1)) k) = true) :
    mount_point_for w identity = Except.error Fault.buffer_overrun := by
  have hbase := strlen_code_base identity
  obtain ⟨m, hall', hres⟩ := collision_loop_fuel w
    (strncat MOUNT_PREFIX identity (PATH_MAX - strlen MOUNT_PREFIX - 1))
  rcases hres with ⟨_, hstop⟩ | ⟨hr, _⟩
  · exfalso
    have hlt : strlen (strncat MOUNT_PREFIX identity (PATH_MAX - strlen MOUNT_PREFIX - 1)) + m
        < PATH_MAX := by
      rcases Nat.eq_zero_or_pos m with h0 | hpos
      · omega
      · have := (hall' (m - 1) (by omega)).2
        omega
    exact hstop ⟨hall m hlt, hlt⟩
  · unfold mount_point_for
    simp only [strncat_into_base, hr]

/-- What `mount_point_for` returns when it returns: always a path, never
`NULL`; the path is the base path with some suffixes, the first candidate
that does not collide, and it is shorter than `PATH_MAX`. -/
theorem mount_point_for_ok (w : World) (identity : CStr) (r : Option CStr)
    (h : mount_point_for w identity = Except.ok r) :
    ∃ n, r = some (with_suffixes
        (strncat MOUNT_PREFIX identity (PATH_MAX - strlen MOUNT_PREFIX - 1)) n) ∧
      (∀ k, k < n → collides w (with_suffixes
        (strncat MOUNT_PREFIX identity (PATH_MAX - strlen MOUNT_PREFIX - 1)) k) = true) ∧
      collides w (with_suffixes
        (strncat MOUNT_PREFIX identity (PATH_MAX - strlen MOUNT_PREFIX - 1)) n) = false ∧
      strlen (with_suffixes
        (strncat MOUNT_PREFIX identity (PATH_MAX - strlen MOUNT_PREFIX - 1)) n) < PATH_MAX := by
  have hbase := strlen_code_base identity
  obtain ⟨m, hall, hres⟩ := collision_loop_fuel w
    (strncat MOUNT_PREFIX identity (PATH_MAX - strlen MOUNT_PREFIX - 1))
  unfold mount_point_for at h
  rcases hres with ⟨hr, hstop⟩ | ⟨hr, _⟩
  · simp only [strncat_into_base, hr] at h
    have hlt : strlen (with_suffixes
        (strncat MOUNT_PREFIX identity (PATH_MAX - strlen MOUNT_PREFIX - 1)) m) < PATH_MAX := by
      rw [strlen_with_suffixes]
      rcases Nat.eq_zero_or_pos m with h0 | hpos
      · omega
      · have := (hall (m - 1) (by omega)).2
        omega
    rw [if_pos hlt] at h
    refine ⟨m, (Except.ok.inj h).symm, fun k hk => (hall k hk).1, ?_, hlt⟩
    rw [strlen_with_suffixes] at hlt
    cases hc : collides w (with_suffixes
      (strncat MOUNT_PREFIX identity (PATH_MAX - strlen MOUNT_PREFIX - 1)) m) with
    | false => rfl
    | true => exact absurd ⟨hc, hlt⟩ hstop
  · simp only [strncat_into_base, hr] at h
    exact absurd h (by simp)

/-- The `NULL` return of `generate_mount_point` is never reached: the loop
guard `len < PATH_MAX` admits one more append than the array holds, so the
array is overrun before `len` can be `PATH_MAX`. -/
theorem generate_mount_point_never_null (w : World) (device : UdevDevice) :
    generate_mount_point w device ≠ Except.ok none := by
  intro h
  obtain ⟨n, hn, _⟩ := mount_point_for_ok w (candidate_identity device) none h
  exact absurd hn (by simp)

/-- The array is overrun exactly when every candidate shorter than `PATH_MAX`
collides. -/
theorem mount_point_for_overrun_iff (w : World) (identity : CStr) :
    mount_point_for w identity = Except.error Fault.buffer_overrun ↔
      ∀ k, strlen (strncat MOUNT_PREFIX identity (PATH_MAX - strlen MOUNT_PREFIX - 1)) + k
          < PATH_MAX →
        collides w (with_suffixes
          (strncat MOUNT_PREFIX identity (PATH_MAX - strlen MOUNT_PREFIX - 1)) k) = true := by
  constructor
  · intro h k hk
    cases hc : collides w (with_suffixes (strncat MOUNT_PREFIX identity
        (PATH_MAX - strlen MOUNT_PREFIX - 1)) k) with
    | true => rfl
    | false =>
      exfalso
      obtain ⟨j, hj, hjmin⟩ : ∃ j, (collides w (with_suffixes (strncat MOUNT_PREFIX
          identity (PATH_MAX - strlen MOUNT_PREFIX - 1)) j) = false ∧
          j ≤ k) ∧ ∀ i, i < j → collides w (with_suffixes (strncat MOUNT_PREFIX
          identity (PATH_MAX - strlen MOUNT_PREFIX - 1)) i) = true := by
        classical
        have hex : ∃ j, collides w (with_suffixes (strncat MOUNT_PREFIX
            identity (PATH_MAX - strlen MOUNT_PREFIX - 1)) j) = false := ⟨k, hc⟩
        refine ⟨Nat.find hex, ⟨Nat.find_spec hex, Nat.find_min' hex hc⟩, ?_⟩
        intro i hi
        have := Nat.find_min hex hi
        simpa using this
      have hs := mount_point_for_some w identity j hjmin hj.1 (by have := hj.2; omega)
      rw [hs] at h
      exact absurd h (by simp)
  · exact mount_point_for_overrun w identity

theorem code_base_of_short (identity : CStr)
    (h : strlen MOUNT_PREFIX + strlen identity < PATH_MAX) :
    strncat MOUNT_PREFIX identity (PATH_MAX - strlen MOUNT_PREFIX - 1) = base_path identity := by
  unfold strncat base_path
  rw [List.take_of_length_le]
  simp only [strlen] at h
  simp only [strlen]
  omega

theorem collides_of_live (w : World) (p : CStr) (hs : w.stat p ≠ none)
    (hl : live_mount_point w p) : collides w p = true := by
  cases hc : collides w p with
  | true => rfl
  | false =>
    rcases (collides_false_iff w p).mp hc with h | h
    · exact absurd h hs
    · exact absurd hl h.2

theorem code_base_extends (identity : CStr) (n : Nat) :
    MOUNT_PREFIX <+: strncat MOUNT_PREFIX identity n :=
  List.prefix_append _ _

theorem strlen_MOUNT_PREFIX : strlen MOUNT_PREFIX = 7 := rfl

theorem strlen_base_path (identity : CStr) :
    strlen (base_path identity) = strlen MOUNT_PREFIX + strlen identity :=
  List.length_append _ _

theorem strlen_deep_dirs (n : Nat) : strlen (deep_dirs n) = 255 * n := by
  induction n with
  | zero => rfl
  | succ n ih =>
    simp only [strlen] at ih
    simp only [deep_dirs, strlen, List.length_append, List.length_replicate, List.length_cons, ih]
    omega

theorem strlen_deep_label : strlen deep_label = 4088 := by
  have h := strlen_deep_dirs 16
  simp only [strlen] at h
  simp only [deep_label, strlen, List.length_append, List.length_replicate, h]

theorem deep_world_stat : deep_world.stat (base_path deep_label) = some false := by
  simp only [deep_world, if_true]

/-! ## Claims on `generate_mount_point` -/

/-- C1, as stated, fails: for a label of 4089 bytes and nothing on disk, the
path `MOUNT_PREFIX + identity` has no collision, yet the code returns the
prefix followed by the first 4088 bytes only. -/
theorem C1_truncation_counterexample :
    candidate_identity long_label_device = long_label ∧
    no_collision empty_world (base_path long_label) ∧
    generate_mount_point empty_world long_label_device ≠
      Except.ok (some (base_path long_label)) ∧
    generate_mount_point empty_world long_label_device =
      Except.ok (some (MOUNT_PREFIX ++ List.replicate 4088 'A')) := by
  have hid : candidate_identity long_label_device = long_label := rfl
  have hres : generate_mount_point empty_world long_label_device =
      Except.ok (some (MOUNT_PREFIX ++ List.replicate 4088 'A')) := by
    unfold generate_mount_point
    rw [hid]
    have h := mount_point_for_some empty_world long_label 0
      (fun k hk => absurd hk (Nat.not_lt_zero k))
      ((collides_false_iff _ _).mpr (Or.inl rfl))
      (strlen_code_base long_label)
    rw [h]
    have e : PATH_MAX - strlen MOUNT_PREFIX - 1 = 4088 := rfl
    simp only [with_suffixes, strncat, long_label, e, List.take_replicate]
    rfl
  refine ⟨hid, Or.inl rfl, ?_, hres⟩
  rw [hres]
  intro h
  have := congrArg (fun o => o.map List.length) (Except.ok.inj h)
  simp only [Option.map_some', base_path, long_label, List.length_append,
    List.length_replicate, Option.some.injEq] at this
  omega

/-- C1, amended: for every identity of at most `PATH_MAX - strlen(MOUNT_PREFIX) - 1`
bytes and every state in which `MOUNT_PREFIX + identity` has no collision,
`generate_mount_point` returns exactly `MOUNT_PREFIX + identity`. -/
theorem generate_mount_point_no_collision (w : World) (device : UdevDevice)
    (hlen : strlen (candidate_identity device) ≤ PATH_MAX - strlen MOUNT_PREFIX - 1)
    (h : no_collision w (base_path (candidate_identity device))) :
    generate_mount_point w device =
      Except.ok (some (base_path (candidate_identity device))) := by
  have h7 : strlen MOUNT_PREFIX = 7 := rfl
  have hb := code_base_of_short (candidate_identity device)
    (by rw [h7] at hlen ⊢; simp only [PATH_MAX] at hlen ⊢; omega)
  have hs := mount_point_for_some w (candidate_identity device) 0
    (fun k hk => absurd hk (Nat.not_lt_zero k))
    (by rw [hb]; exact (collides_false_iff _ _).mpr h)
    (strlen_code_base _)
  unfold generate_mount_point
  rw [hs, hb]
  rfl

theorem generate_mount_point_no_collision_witness :
    strlen (candidate_identity data_device) ≤ PATH_MAX - strlen MOUNT_PREFIX - 1 ∧
    no_collision empty_world (base_path (candidate_identity data_device)) ∧
    generate_mount_point empty_world data_device = Except.ok (some "/media/DATA".toList) :=
  ⟨by decide, Or.inl rfl,
   generate_mount_point_no_collision empty_world data_device (by decide) (Or.inl rfl)⟩

/-- C2, as stated, fails: when the mount table lists `/media/DATA` but `stat`
fails on that path, the hypotheses of the claim hold with `n = 1`, yet the
code returns `/media/DATA` and not `/media/DATA_`. -/
theorem C2_suffix_chain_counterexample :
    (1 ≤ 1 ∧
      (∀ k, k < 1 → live_mount_point stale_world
        (with_suffixes (base_path (candidate_identity data_device)) k)) ∧
      no_collision stale_world (with_suffixes (base_path (candidate_identity data_device)) 1)) ∧
    generate_mount_point stale_world data_device ≠
      Except.ok (some (with_suffixes (base_path (candidate_identity data_device)) 1)) ∧
    generate_mount_point stale_world data_device = Except.ok (some "/media/DATA".toList) := by
  refine ⟨⟨le_refl 1, ?_, Or.inl rfl⟩, ?_, rfl⟩
  · intro k hk
    have hk0 : k = 0 := by omega
    subst hk0
    exact ⟨_, rfl, ⟨_, List.mem_singleton.mpr rfl, rfl⟩⟩
  · intro h
    exact absurd (Except.ok.inj h) (by decide)

/-- C2, amended: for every identity and every `n ≥ 1`, if `MOUNT_PREFIX + identity`
followed by `k` suffixes exists on disk and is a live mount point for every
`k < n`, the path with `n` suffixes is not a collision, and that path is
shorter than `PATH_MAX`, then `generate_mount_point` returns
`MOUNT_PREFIX + identity` followed by exactly `n` suffixes, which is `n` bytes
longer than the base path.  (Chains that reach `PATH_MAX` bytes are left out:
there the code overruns its array, see C5.) -/
theorem generate_mount_point_suffix_chain (w : World) (device : UdevDevice) (n : Nat)
    (hn : 1 ≤ n)
    (hall : ∀ k, k < n →
      w.stat (with_suffixes (base_path (candidate_identity device)) k) ≠ none ∧
      live_mount_point w (with_suffixes (base_path (candidate_identity device)) k))
    (hfree : no_collision w (with_suffixes (base_path (candidate_identity device)) n))
    (hlen : strlen (with_suffixes (base_path (candidate_identity device)) n) < PATH_MAX) :
    generate_mount_point w device =
      Except.ok (some (with_suffixes (base_path (candidate_identity device)) n)) ∧
    strlen (with_suffixes (base_path (candidate_identity device)) n) =
      strlen (base_path (candidate_identity device)) + n := by
  have hb := code_base_of_short (candidate_identity device) (by
    rw [strlen_with_suffixes] at hlen
    simp only [base_path, strlen, List.length_append] at hlen
    simp only [strlen]
    omega)
  refine ⟨?_, strlen_with_suffixes _ _⟩
  have hs := mount_point_for_some w (candidate_identity device) n
    (by rw [hb]; exact fun k hk => collides_of_live _ _ (hall k hk).1 (hall k hk).2)
    (by rw [hb]; exact (collides_false_iff _ _).mpr hfree)
    (by rw [hb]; rw [strlen_with_suffixes] at hlen; exact hlen)
  unfold generate_mount_point
  rw [hs, hb]

theorem generate_mount_point_suffix_chain_witness :
    generate_mount_point data_mounted_world data_device =
      Except.ok (some "/media/DATA_".toList) ∧
    strlen "/media/DATA_".toList = strlen "/media/DATA".toList + 1 :=
  generate_mount_point_suffix_chain data_mounted_world data_device 1 (by decide)
    (fun k hk => by
      have hk0 : k = 0 := by omega
      subst hk0
      exact ⟨by decide, ⟨_, rfl, ⟨_, List.mem_singleton.mpr rfl, rfl⟩⟩⟩)
    (Or.inl rfl) (by decide)

/-- C3: whenever `generate_mount_point` returns a path, the path begins with
`MOUNT_PREFIX`, and either it does not exist on disk or it exists as a
directory that `is_mount_point` does not report as a live mount point. -/
theorem generate_mount_point_sound (w : World) (device : UdevDevice) (p : CStr)
    (h : generate_mount_point w device = Except.ok (some p)) :
    MOUNT_PREFIX <+: p ∧
    (path_exist w p = false ∨
      (path_exist w p = true ∧ is_directory w p = true ∧
        (is_mount_point w p false).1.ret = false)) := by
  obtain ⟨n, hp, _, hc, _⟩ := mount_point_for_ok w (candidate_identity device) (some p) h
  have hp : p = _ := Option.some.inj hp
  rw [← hp] at hc
  refine ⟨?_, ?_⟩
  · rw [hp]
    exact (code_base_extends _ _).trans (with_suffixes_extends _ _)
  · unfold collides at hc
    cases he : path_exist w p with
    | false => exact Or.inl rfl
    | true =>
      right
      rw [he] at hc
      cases hd : is_directory w p with
      | false => rw [hd] at hc; simp at hc
      | true =>
        cases hm : (is_mount_point w p false).1.ret with
        | false => exact ⟨rfl, rfl, rfl⟩
        | true => rw [hm] at hc; simp at hc

theorem generate_mount_point_sound_witness :
    generate_mount_point data_mounted_world data_device =
      Except.ok (some "/media/DATA_".toList) ∧
    MOUNT_PREFIX <+: "/media/DATA_".toList ∧
    (path_exist data_mounted_world "/media/DATA_".toList = false ∨
      (path_exist data_mounted_world "/media/DATA_".toList = true ∧
        is_directory data_mounted_world "/media/DATA_".toList = true ∧
        (is_mount_point data_mounted_world "/media/DATA_".toList false).1.ret = false)) :=
  ⟨rfl,
   generate_mount_point_sound data_mounted_world data_device "/media/DATA_".toList rfl⟩

/-- C4: the identity used by `generate_mount_point` is the `ID_FS_LABEL` value
when present, otherwise the `ID_MODEL` value when present, otherwise the
fallback `"_"`; with neither present and no collision at `/media/_`, the
returned path is `/media/_`. -/
theorem generate_mount_point_identity (w : World) (device : UdevDevice) :
    (∀ label, udev_device_get_property_value device "ID_FS_LABEL".toList = some label →
      candidate_identity device = label ∧
      generate_mount_point w device = mount_point_for w label) ∧
    (udev_device_get_property_value device "ID_FS_LABEL".toList = none →
      ∀ model, udev_device_get_property_value device "ID_MODEL".toList = some model →
        candidate_identity device = model ∧
        generate_mount_point w device = mount_point_for w model) ∧
    (udev_device_get_property_value device "ID_FS_LABEL".toList = none →
      udev_device_get_property_value device "ID_MODEL".toList = none →
        candidate_identity device = "_".toList ∧
        generate_mount_point w device = mount_point_for w "_".toList ∧
        (no_collision w "/media/_".toList →
          generate_mount_point w device = Except.ok (some "/media/_".toList))) := by
  refine ⟨?_, ?_, ?_⟩
  · intro label hl
    have : candidate_identity device = label := by
      unfold candidate_identity
      simp only [hl]
    exact ⟨this, by rw [generate_mount_point, this]⟩
  · intro hl model hm
    have : candidate_identity device = model := by
      unfold candidate_identity
      simp only [hl, hm]
    exact ⟨this, by rw [generate_mount_point, this]⟩
  · intro hl hm
    have : candidate_identity device = "_".toList := by
      unfold candidate_identity
      simp only [hl, hm]
      rfl
    refine ⟨this, by rw [generate_mount_point, this], ?_⟩
    intro hfree
    have h := generate_mount_point_no_collision w device
      (by rw [this]; decide) (by rw [this]; exact hfree)
    rw [h, this]
    rfl

theorem generate_mount_point_identity_witness :
    candidate_identity data_device = "DATA".toList ∧
    candidate_identity model_device = "Flash_Disk".toList ∧
    generate_mount_point empty_world bare_device = Except.ok (some "/media/_".toList) :=
  ⟨((generate_mount_point_identity empty_world data_device).1 "DATA".toList rfl).1,
   ((generate_mount_point_identity empty_world model_device).2.1 rfl "Flash_Disk".toList rfl).1,
   ((generate_mount_point_identity empty_world bare_device).2.2 rfl rfl).2.2 (Or.inl rfl)⟩

/-- C5, at a failing input: the label has 4088 bytes, so the base path has
`PATH_MAX - 1` bytes, and that path exists as a regular file.  Every candidate
shorter than `PATH_MAX` is then a collision, the case in which the claim has
`generate_mount_point` return `NULL`.  The code does not return `NULL`: the
loop guard `len < PATH_MAX` holds at `len = PATH_MAX - 1`, and the `strncat`
of the suffix writes the terminating NUL past the end of
`mount_point[PATH_MAX]`. -/
theorem generate_mount_point_overrun :
    candidate_identity deep_device = deep_label ∧
    strlen (base_path deep_label) = PATH_MAX - 1 ∧
    (∀ k, strlen (base_path deep_label) + k < PATH_MAX →
      ¬ no_collision deep_world (with_suffixes (base_path deep_label) k)) ∧
    generate_mount_point deep_world deep_device = Except.error Fault.buffer_overrun ∧
    generate_mount_point deep_world deep_device ≠ Except.ok none := by
  have hid : candidate_identity deep_device = deep_label := rfl
  have hlen : strlen (base_path deep_label) = PATH_MAX - 1 := by
    rw [strlen_base_path, strlen_MOUNT_PREFIX, strlen_deep_label]
    rfl
  have hcol : ∀ k, strlen (base_path deep_label) + k < PATH_MAX →
      collides deep_world (with_suffixes (base_path deep_label) k) = true := by
    intro k hk
    have hk0 : k = 0 := by
      rw [hlen] at hk
      simp only [PATH_MAX] at hk
      omega
    subst hk0
    simp only [with_suffixes, collides, path_exist, is_directory, deep_world_stat,
      Option.isSome_some, Bool.not_false, Bool.or_true, Bool.and_self]
  have hres : generate_mount_point deep_world deep_device =
      Except.error Fault.buffer_overrun := by
    unfold generate_mount_point
    rw [hid]
    have hb : strncat MOUNT_PREFIX deep_label (PATH_MAX - strlen MOUNT_PREFIX - 1) =
        base_path deep_label :=
      code_base_of_short deep_label (by
        rw [strlen_MOUNT_PREFIX, strlen_deep_label]
        decide)
    apply mount_point_for_overrun
    rw [hb]
    exact hcol
  refine ⟨hid, hlen, ?_, hres, by rw [hres]; simp⟩
  intro k hk hfree
  have := hcol k hk
  rw [(collides_false_iff _ _).mpr hfree] at this
  exact absurd this (by simp)

/-! ## Claims on the mount table queries -/

/-- C6: on a mount table `table`, `is_mount_point(path)` returns true together
with the device node of the first entry in table order whose mount path is
`path`, and `is_mounted(dev)` returns true together with the mount path of the
first entry whose device node is `dev`; each returns false with no result
when no entry matches; the world after either call is the world before it. -/
theorem mount_table_lookup (stat : CStr → Option Bool) (table : List mntent)
    (path dev : CStr) :
    is_mount_point ⟨stat, some table⟩ path true =
      ((match table.find? (fun e => decide (e.mnt_dir = path)) with
        | some e => ⟨true, some e.mnt_fsname⟩
        | none => ⟨false, none⟩), ⟨stat, some table⟩) ∧
    is_mounted ⟨stat, some table⟩ dev true =
      ((match table.find? (fun e => decide (e.mnt_fsname = dev)) with
        | some e => ⟨true, some e.mnt_dir⟩
        | none => ⟨false, none⟩), ⟨stat, some table⟩) := by
  constructor
  · simp only [is_mount_point, is_mount_point_loop_find]
    cases table.find? (fun e => decide (e.mnt_dir = path)) <;> rfl
  · simp only [is_mounted, is_mounted_loop_find]
    cases table.find? (fun e => decide (e.mnt_fsname = dev)) <;> rfl

/-! ## Claims on `unmount_device` -/

theorem is_mounted_absent (w : World) (dev : CStr) (flag : Bool)
    (h : ∀ t, w.mtab = some t → ∀ e ∈ t, e.mnt_fsname ≠ dev) :
    (is_mounted w dev flag).1 = ⟨false, none⟩ := by
  unfold is_mounted
  cases hm : w.mtab with
  | none => rfl
  | some t =>
    simp only [is_mounted_loop_find]
    have : t.find? (fun e => decide (e.mnt_fsname = dev)) = none := by
      simp only [List.find?_eq_none, decide_eq_true_eq]
      exact fun e he => h t hm e he
    rw [this]

/-- C7: for a device whose device node matches no entry of the mount table,
`unmount_device` does nothing: no unmount, no directory removal, no
diagnostic. -/
theorem unmount_device_not_mounted (sys : Sys) (w : World) (device : UdevDevice)
    (h : ∀ t, w.mtab = some t → ∀ e ∈ t, e.mnt_fsname ≠ udev_device_get_devnode device) :
    unmount_device sys w device = [] := by
  unfold unmount_device
  simp only [is_mounted_absent w _ true h]
  rfl

theorem unmount_device_not_mounted_witness :
    unmount_device sys_ok data_mounted_world data_device = [] :=
  unmount_device_not_mounted sys_ok data_mounted_world data_device (by
    intro t ht e he
    have ht2 : t = [⟨"/dev/sdb1".toList, "/media/DATA".toList⟩] := (Option.some.inj ht).symm
    subst ht2
    rw [List.mem_singleton] at he
    subst he
    decide)

/-- C8: for a device that `is_mounted` resolves to the mount path `p`,
`unmount_device` first issues the unmount against `p`, and only against `p`;
it attempts to remove the directory `p` if and only if that unmount succeeded;
when the unmount fails it reports an error and does nothing else. -/
theorem unmount_device_mounted (sys : Sys) (w : World) (device : UdevDevice) (p : CStr)
    (h : (is_mounted w (udev_device_get_devnode device) true).1 = ⟨true, some p⟩) :
    (unmount_device sys w device).head? = some (Effect.umount p) ∧
    (unmount_device sys w device).filter Effect.isUmount = [Effect.umount p] ∧
    ((unmount_device sys w device).filter Effect.isRmdir = [Effect.rmdir p] ↔
      sys.umount p ≠ -1) ∧
    (sys.umount p = -1 →
      unmount_device sys w device =
        [Effect.umount p,
         Effect.stderr (Msg.failed_unmount (udev_device_get_devnode device) p)]) ∧
    (sys.umount p = -1 → (unmount_device sys w device).filter Effect.isRmdir = []) := by
  unfold unmount_device
  simp only [h]
  by_cases hu : sys.umount p = -1
  · simp [hu, Effect.isUmount, Effect.isRmdir]
  · by_cases hr : sys.rmdir p = -1
    · simp [hu, hr, Effect.isUmount, Effect.isRmdir]
    · simp [hu, hr, Effect.isUmount, Effect.isRmdir]

theorem unmount_device_mounted_witness :
    unmount_device sys_ok data_mounted_world removed_device =
      [Effect.umount "/media/DATA".toList,
       Effect.stdout (Msg.unmounted "/dev/sdb1".toList "/media/DATA".toList),
       Effect.rmdir "/media/DATA".toList] ∧
    unmount_device sys_umount_fails data_mounted_world removed_device =
      [Effect.umount "/media/DATA".toList,
       Effect.stderr (Msg.failed_unmount "/dev/sdb1".toList "/media/DATA".toList)] :=
  ⟨by decide,
   (unmount_device_mounted sys_umount_fails data_mounted_world removed_device
     "/media/DATA".toList (by decide)).2.2.2.1 (by decide)⟩

/-! ## Claims on `mount_device` -/

/-- C9, as stated, fails in two ways.  First, when the directory is created
and `fork` fails, the mount command is not run.  Second, when the device has
no `ID_FS_TYPE`, the argument list of the mount command ends after `-t`. -/
theorem C9_mount_command_counterexample :
    ((sys_fork_fails.mkdir "/media/DATA".toList MOUNT_POINT_MODE).1 = 0 ∧
      (mount_device sys_fork_fails false data_device "/media/DATA".toList).map execs =
        Except.ok []) ∧
    ((sys_ok.mkdir "/media/DATA".toList MOUNT_POINT_MODE).1 = 0 ∧
      udev_device_get_property_value untyped_device "ID_FS_TYPE".toList = none ∧
      (mount_device sys_ok false untyped_device "/media/DATA".toList).map execs =
        Except.ok [("/sbin/mount".toList, ["/sbin/mount".toList, "-t".toList])]) :=
  ⟨⟨rfl, rfl⟩, ⟨rfl, rfl, rfl⟩⟩

/-- C9, amended: for every device that carries a filesystem type `fs` (the
`ID_FS_TYPE` value, after the compile-time substitution) and every mount
path, `mount_device` runs the mount command, exactly once and with argument
list `[-t, fs, device_node, mount_path]`, if and only if creating the
directory succeeded or failed with "already exists" and the `fork` succeeded;
otherwise no command is run; on any other directory-creation failure it
reports the failure and spawns no child process. -/
theorem mount_device_runs_mount (sys : Sys) (USE_NTFS3G : Bool) (device : UdevDevice)
    (mount_point fs : CStr)
    (hfs : substitute_fs_type USE_NTFS3G
      (udev_device_get_property_value device "ID_FS_TYPE".toList) = Except.ok (some fs)) :
    ∃ tr, mount_device sys USE_NTFS3G device mount_point = Except.ok tr ∧
    (execs tr =
        [("/sbin/mount".toList,
          ["/sbin/mount".toList, "-t".toList, fs, udev_device_get_devnode device,
           mount_point])] ↔
      (((sys.mkdir mount_point MOUNT_POINT_MODE).1 ≠ -1 ∨
        (sys.mkdir mount_point MOUNT_POINT_MODE).2 = EEXIST) ∧ sys.fork_ok = true)) ∧
    (¬ (((sys.mkdir mount_point MOUNT_POINT_MODE).1 ≠ -1 ∨
        (sys.mkdir mount_point MOUNT_POINT_MODE).2 = EEXIST) ∧ sys.fork_ok = true) →
      execs tr = []) ∧
    (((sys.mkdir mount_point MOUNT_POINT_MODE).1 = -1 ∧
        (sys.mkdir mount_point MOUNT_POINT_MODE).2 ≠ EEXIST) →
      tr =
        [Effect.mkdir mount_point MOUNT_POINT_MODE,
         Effect.stderr (Msg.failed_create_mount_point
           (sys.mkdir mount_point MOUNT_POINT_MODE).2 mount_point)]) := by
  refine ⟨mount_device_run sys (some fs) (udev_device_get_devnode device) mount_point, ?_, ?_⟩
  · unfold mount_device
    simp only [hfs]
  unfold mount_device_run
  by_cases hm : (sys.mkdir mount_point MOUNT_POINT_MODE).1 = -1 ∧
      (sys.mkdir mount_point MOUNT_POINT_MODE).2 ≠ EEXIST
  · have hneg : ¬ ((sys.mkdir mount_point MOUNT_POINT_MODE).1 ≠ -1 ∨
        (sys.mkdir mount_point MOUNT_POINT_MODE).2 = EEXIST) := by
      intro h
      rcases h with h | h
      · exact h hm.1
      · exact hm.2 h
    simp only [if_pos hm]
    simp [execs, hneg]
  · have hpos : (sys.mkdir mount_point MOUNT_POINT_MODE).1 ≠ -1 ∨
        (sys.mkdir mount_point MOUNT_POINT_MODE).2 = EEXIST := by
      by_cases h1 : (sys.mkdir mount_point MOUNT_POINT_MODE).1 = -1
      · by_cases h2 : (sys.mkdir mount_point MOUNT_POINT_MODE).2 = EEXIST
        · exact Or.inr h2
        · exact absurd ⟨h1, h2⟩ hm
      · exact Or.inl h1
    simp only [if_neg hm]
    cases hf : sys.fork_ok with
    | false => simp [execs, hm]
    | true =>
      cases he : sys.execl_ok <;>
        by_cases hw : sys.wait_status = 0 <;>
          simp [execs, child_execs, mount_child, execl_argv, hm, hpos, hw, he]

theorem mount_device_runs_mount_witness :
    ∃ tr, mount_device sys_ok false data_device "/media/DATA".toList = Except.ok tr ∧
      execs tr =
        [("/sbin/mount".toList,
          ["/sbin/mount".toList, "-t".toList, "vfat".toList, "/dev/sdc1".toList,
           "/media/DATA".toList])] :=
  (mount_device_runs_mount sys_ok false data_device "/media/DATA".toList "vfat".toList
    rfl).imp (fun _ h => ⟨h.1, h.2.1.mpr (by decide)⟩)

/-! ## Claims on the loop of `main` -/

/-- C10: one dispatch step on a received device.  On action "add" it calls
`generate_mount_point` and hands the returned value to the "add" branch, which
calls `mount_device` with exactly the returned path, and only logs when the
value is `NULL` (no directory creation, no mount).  On action "remove" it
calls `unmount_device`.  On any other action it performs neither a mount nor
an unmount. -/
theorem main_loop_step_dispatch (sys : Sys) (USE_NTFS3G : Bool) (w : World)
    (d : UdevDevice) :
    (udev_device_get_action d = "add".toList →
      ∀ r, generate_mount_point w d = Except.ok r →
        main_loop_step sys USE_NTFS3G w (some d) =
          (add_branch sys USE_NTFS3G d r).map (fun tr =>
            Effect.stdout (Msg.added (udev_device_get_devnode d)) ::
              (tr ++ [Effect.sleep 1]))) ∧
    (∀ p, add_branch sys USE_NTFS3G d (some p) = mount_device sys USE_NTFS3G d p) ∧
    (add_branch sys USE_NTFS3G d none =
      Except.ok [Effect.stderr (Msg.failed_generate (udev_device_get_devnode d))]) ∧
    (udev_device_get_action d = "add".toList →
      ∀ p tr, generate_mount_point w d = Except.ok (some p) →
        mount_device sys USE_NTFS3G d p = Except.ok tr →
          main_loop_step sys USE_NTFS3G w (some d) =
            Except.ok (Effect.stdout (Msg.added (udev_device_get_devnode d)) ::
              (tr ++ [Effect.sleep 1]))) ∧
    (udev_device_get_action d = "remove".toList →
      main_loop_step sys USE_NTFS3G w (some d) =
        Except.ok (Effect.stdout (Msg.removed (udev_device_get_devnode d)) ::
          (unmount_device sys w d ++ [Effect.sleep 1]))) ∧
    (udev_device_get_action d ≠ "add".toList →
      udev_device_get_action d ≠ "remove".toList →
        main_loop_step sys USE_NTFS3G w (some d) = Except.ok [Effect.sleep 1]) := by
  refine ⟨?_, fun _ => rfl, rfl, ?_, ?_, ?_⟩
  · intro ha r hr
    unfold main_loop_step
    simp only [ha, hr, if_true]
    cases add_branch sys USE_NTFS3G d r <;> rfl
  · intro ha p tr hp htr
    unfold main_loop_step
    simp only [ha, hp, if_true, add_branch, htr]
    rfl
  · intro hr
    have hne : ¬ ("remove".toList = "add".toList) := by decide
    unfold main_loop_step
    simp only [hr, if_neg hne, if_true]
    rfl
  · intro ha hr
    unfold main_loop_step
    simp only [if_neg ha, if_neg hr]
    rfl

theorem main_loop_step_dispatch_witness :
    main_loop_step sys_ok false empty_world (some data_device) =
      (add_branch sys_ok false data_device (some "/media/DATA".toList)).map (fun tr =>
        Effect.stdout (Msg.added "/dev/sdc1".toList) :: (tr ++ [Effect.sleep 1])) ∧
    main_loop_step sys_ok false empty_world (some data_device) =
      Except.ok (Effect.stdout (Msg.added "/dev/sdc1".toList) ::
        (mount_device_run sys_ok (some "vfat".toList) "/dev/sdc1".toList
          "/media/DATA".toList ++ [Effect.sleep 1])) ∧
    main_loop_step sys_ok false data_mounted_world (some removed_device) =
      Except.ok (Effect.stdout (Msg.removed "/dev/sdb1".toList) ::
        (unmount_device sys_ok data_mounted_world removed_device ++ [Effect.sleep 1])) ∧
    main_loop_step sys_ok false data_mounted_world (some changed_device) =
      Except.ok [Effect.sleep 1] :=
  ⟨(main_loop_step_dispatch sys_ok false empty_world data_device).1 rfl
     (some "/media/DATA".toList) rfl,
   (main_loop_step_dispatch sys_ok false empty_world data_device).2.2.2.1 rfl
     "/media/DATA".toList _ rfl rfl,
   (main_loop_step_dispatch sys_ok false data_mounted_world removed_device).2.2.2.2.1 rfl,
   (main_loop_step_dispatch sys_ok false data_mounted_world changed_device).2.2.2.2.2
     (by decide) (by decide)⟩

end Suamd
